import Mathlib

/-!
# Verification of the `uv` tool formula's convergence logic

A shallow embedding of the Salt state module `_states/uv_tool.py` and the
execution module `_modules/uv.py`. Pure control flow is translated directly;
the external collaborators (the `__salt__` dispatch table, the `packaging`
library's version/specifier semantics, path resolution, subprocess output and
JSON rendering) are supplied as explicit environment records, mirroring how
the state module reaches them only through dynamic lookup.

Errors are modelled with an explicit error type: `CommandExecutionError` and
`SaltInvocationError` are the classes named in the modules' `except` clauses;
`StopIteration` is what `next` raises in `get_latest_version` when no release
satisfies the version specifier.
-/

namespace UvFormula

/-- Exception classes that can cross the collaborator boundary.
`cee` is `CommandExecutionError`, `sie` is `SaltInvocationError`,
`stopIteration` is Python's `StopIteration` (raised by `next` on an
exhausted iterator in `get_latest_version`). -/
inductive Err where
  | cee (msg : String)
  | sie (msg : String)
  | stopIteration
  deriving Repr, DecidableEq

/-- One record of the mapping returned by `uv.tool_list` — the observed
state of a single installed tool (`tools[tool] = {...}` in `tool_list`). -/
structure ObservedState where
  python : String
  python_version : String
  install_spec : Option String
  version : String
  venv_path : String
  pkgs : List (String × String)
  deriving Repr, DecidableEq

/-- An element of the `extras` argument: either a bare package name or a
single-keyed mapping `{name: version specifier}`. -/
inductive Extra where
  | str (s : String)
  | map (pkg : String) (spec : String)
  deriving Repr, DecidableEq

/-- Python `extra, None` for a bare string, `next(iter(extra.items()))` for a
single-keyed mapping. -/
def extraParts : Extra → String × Option String
  | .str s => (s, none)
  | .map pkg spec => (pkg, some spec)

/-- The `extras` argument before normalisation: `extras if isinstance(extras,
list) else [extras]`. -/
inductive ExtraArg where
  | one (e : Extra)
  | many (l : List Extra)
  deriving Repr, DecidableEq

def ExtraArg.toList : ExtraArg → List Extra
  | .one e => [e]
  | .many l => l

/-- Python `"".join(next(iter(extra.items()))) if isinstance(extra, dict) else extra`. -/
def flattenExtra : Extra → String
  | .str s => s
  | .map pkg spec => pkg ++ spec

/-- One entry of the `extra_misses` dict built in `_check_changes`. -/
structure ExtraMiss where
  pkg : String
  old : Option String
  new : String
  deriving Repr, DecidableEq

/-- The `changes` dict computed by `_check_changes` (plus the `installed`
marker set by `installed` and the `removed` marker set by `absent`).
Each field is `none` when the corresponding key is absent. -/
structure Changes where
  python : Option (String × String) := none
  extras : Option (List ExtraMiss) := none
  version_spec : Option (Option String × Option String) := none
  version : Option (String × String) := none
  installed : Option String := none
  removed : Option String := none
  deriving Repr, DecidableEq

/-- The empty `changes` dict. -/
def Changes.empty : Changes := {}

/-- Environment of collaborators reached through `__salt__`, `os`,
`pathlib` and `packaging` by the state module. Observations are indexed by
a flag distinguishing the pre-action call from the post-action call, since
the state re-fetches `uv.tool_list` after acting. -/
structure StateEnv where
  /-- Python `os.getuid() == 0`. -/
  uidIsRoot : Bool
  /-- Python `str(Path(p).resolve())`. -/
  resolvePath : String → String
  /-- Python `Version(v) in SpecifierSet(spec)`. -/
  specContains : String → String → Bool
  /-- Python `Version(a) < Version(b)`. -/
  versionLt : String → String → Bool
  /-- Python `Version(a) == Version(b)`. -/
  versionEq : String → String → Bool
  /-- Call `__salt__["uv.get_latest_version"](pkg, spec=spec)`. -/
  getLatestVersion : String → Option String → Except Err String
  /-- Call `__salt__["uv.tool_is_outdated"](name, spec=..., get_versions=True)`. -/
  toolIsOutdated : String → Option String → Except Err (Bool × String × String)
  /-- Call `__salt__["uv.tool_list"]([name], ...)`; the argument is `true` for the
  re-observation after the corrective action. -/
  toolList : Bool → Except Err (Option ObservedState)
  /-- Call `__salt__["uv.tool_install"](name, **cmd_kwargs)`. -/
  toolInstall : Except Err Unit
  /-- Call `__salt__["uv.tool_upgrade"](name, **cmd_kwargs)`. -/
  toolUpgrade : Except Err Unit
  /-- Call `__salt__["uv.tool_is_installed"](name, ...)`; the argument is `true`
  for the re-check after removal. -/
  toolIsInstalled : Bool → Except Err Bool
  /-- Call `__salt__["uv.tool_remove"](name, ...)`. -/
  toolRemove : Except Err Unit
  /-- Call `json.dumps(new_changes)`. -/
  dumps : Changes → String

/-- Action-executor calls dispatched by the state module, recorded as a
trace in invocation order. -/
inductive Action where
  | toolInstall (name : String) (reinstall force refresh : Bool)
      (refresh_package : Option String) (extras : Option (List String))
      (python : Option String)
  | toolUpgrade (name : String) (upgrade : Bool) (python : Option String)
  | toolRemove (name : String)
  deriving Repr, DecidableEq

/-- The structured result record returned to the state compiler:
`{"name": ..., "result": ..., "comment": ..., "changes": ...}`.
`result` is `some true` / `some false` / `none` for `True` / `False` /
`None`. -/
structure Ret where
  name : String
  result : Option Bool
  comment : String
  changes : Changes
  deriving Repr, DecidableEq

/-- Body of the extras loop of `_check_changes` for one extra: returns the
`extra_misses` entry this extra contributes, if any. -/
def checkExtra (env : StateEnv) (upgrade : Bool) (curr : ObservedState)
    (extra : Extra) : Except Err (Option ExtraMiss) :=
  let (extra_pkg, extra_spec) := extraParts extra
  match curr.pkgs.lookup extra_pkg with
  | none =>
      (env.getLatestVersion extra_pkg extra_spec).map
        (fun new => some ⟨extra_pkg, none, new⟩)
  | some inst =>
      let onUpgrade : Except Err (Option ExtraMiss) :=
        if upgrade then
          (env.getLatestVersion extra_pkg extra_spec).map
            (fun new_version =>
              if env.versionLt inst new_version then
                some ⟨extra_pkg, some inst, new_version⟩
              else none)
        else .ok none
      match extra_spec with
      | some sp =>
          if !env.specContains inst sp then
            (env.getLatestVersion extra_pkg extra_spec).map
              (fun new => some ⟨extra_pkg, some inst, new⟩)
          else onUpgrade
      | none => onUpgrade

/-- The extras loop of `_check_changes`, accumulating `extra_misses` in
iteration order. -/
def checkExtras (env : StateEnv) (upgrade : Bool) (curr : ObservedState) :
    List Extra → Except Err (List ExtraMiss)
  | [] => .ok []
  | e :: rest => do
      let miss ← checkExtra env upgrade curr e
      let restMisses ← checkExtras env upgrade curr rest
      pure (match miss with
        | some m => m :: restMisses
        | none => restMisses)

/-- Function `_check_changes(curr)` from `uv_tool.installed`: computes the `changes`
dict and the `requires_install` flag from the observed state and the
declared arguments (which the closure captures). -/
def _check_changes (env : StateEnv) (name : String) (version_spec : Option String)
    (upgrade : Bool) (extras : Option ExtraArg) (python : Option String)
    (curr : ObservedState) : Except Err (Changes × Bool) := do
  let pythonChange : Option (String × String) :=
    match python with
    | some p =>
        if curr.python ≠ env.resolvePath p then some (curr.python, p) else none
    | none => none
  let extrasChange ← match extras with
    | some ea => do
        let extra_misses ← checkExtras env upgrade curr ea.toList
        pure (if extra_misses.isEmpty then none else some extra_misses)
    | none => pure (none : Option (List ExtraMiss))
  let requiresFromExtras : Bool := extrasChange.isSome
  let specBlock ←
    if curr.install_spec ≠ version_spec then do
      let new_version ← env.getLatestVersion name version_spec
      let verChange :=
        if !env.versionEq curr.version new_version then
          some (curr.version, new_version)
        else none
      pure (some (curr.install_spec, version_spec), verChange, true)
    else
      pure ((none : Option (Option String × Option String)),
            (none : Option (String × String)), false)
  let (vsChange, verFromSpec, requiresFromSpec) := specBlock
  let driftBlock ←
    match version_spec, vsChange with
    | some sp, none =>
        if !env.specContains curr.version sp then do
          let new ← env.getLatestVersion name version_spec
          pure (some (curr.version, new), true)
        else pure ((none : Option (String × String)), false)
    | _, _ => pure ((none : Option (String × String)), false)
  let (verFromDrift, requiresFromDrift) := driftBlock
  let verChange := verFromSpec <|> verFromDrift
  let finalVer ←
    if upgrade ∧ verChange = none then do
      let (needs_upgrade, curr_ver, latest_ver) ← env.toolIsOutdated name version_spec
      pure (if needs_upgrade then some (curr_ver, latest_ver) else verChange)
    else pure verChange
  let changes : Changes :=
    { python := pythonChange, extras := extrasChange, version_spec := vsChange,
      version := finalVer }
  pure (changes, requiresFromExtras || requiresFromSpec || requiresFromDrift)

/-- The initial `ret` dict of `installed`. -/
def installedRet0 (name : String) : Ret :=
  { name := name, result := some true,
    comment := "The tool is installed as specified", changes := Changes.empty }

/-- Python `if system is None and user is None and os.getuid() == 0: system = True`. -/
def resolveSystem (env : StateEnv) (system : Option Bool) (user : Option String) :
    Option Bool :=
  if system = none ∧ user = none ∧ env.uidIsRoot then some true else system

/-- Python rendering of an optional user for f-string interpolation. -/
def userRepr : Option String → String
  | some u => u
  | none => "None"

/-- Python `"globally" if system else f"for user \x7buser\x7d"`. -/
def scopeStr (system : Option Bool) (user : Option String) : String :=
  if system = some true then "globally" else "for user " ++ userRepr user

/-- Python `'re' if curr else ''`. -/
def reStr (curr : Option ObservedState) : String :=
  if curr.isSome then "re" else ""

/-- The diff computed by `installed` from the observation: `_check_changes`
when the tool is observed, the `installed` marker with
`requires_install = True` otherwise. -/
def installedDiff (env : StateEnv) (name : String) (version_spec : Option String)
    (upgrade : Bool) (extras : Option ExtraArg) (python : Option String)
    (curr : Option ObservedState) : Except Err (Changes × Bool) :=
  match curr with
  | some c => _check_changes env name version_spec upgrade extras python c
  | none => .ok ({ installed := some name }, true)

/-- The single action-executor call dispatched by `installed` once the diff
is non-empty: `uv.tool_install` when `requires_install`, else
`uv.tool_upgrade`. -/
def installedAction (name : String) (upgrade : Bool) (extras : Option ExtraArg)
    (refresh : Bool) (refresh_package : Option String) (force : Bool)
    (python : Option String) (curr : Option ObservedState)
    (requires_install : Bool) : Action :=
  if requires_install then
    .toolInstall name curr.isSome force refresh refresh_package
      (extras.map (fun ea => ea.toList.map flattenExtra)) python
  else
    .toolUpgrade name upgrade python

/-- The `try` block of `uv_tool.installed`: everything that can raise,
together with the trace of executor calls made before the outcome. -/
def installedBody (env : StateEnv) (name : String) (version_spec : Option String)
    (upgrade : Bool) (extras : Option ExtraArg) (refresh : Bool)
    (refresh_package : Option String) (force : Bool) (python : Option String)
    (system : Option Bool) (user : Option String) (test : Bool) :
    Except Err Ret × List Action :=
  let ret0 := installedRet0 name
  let system := resolveSystem env system user
  match env.toolList false with
  | .error e => (.error e, [])
  | .ok curr =>
    match installedDiff env name version_spec upgrade extras python curr with
    | .error e => (.error e, [])
    | .ok (changes, requires_install) =>
      if changes = Changes.empty then (.ok ret0, [])
      else if test then
        (.ok { ret0 with
            result := none,
            comment := "The tool would have been " ++ reStr curr ++ "installed "
              ++ scopeStr system user,
            changes := changes }, [])
      else
        let act := installedAction name upgrade extras refresh refresh_package
          force python curr requires_install
        let actRes := if requires_install then env.toolInstall else env.toolUpgrade
        match actRes with
        | .error e => (.error e, [act])
        | .ok _ =>
          match env.toolList true with
          | .error e => (.error e, [act])
          | .ok none =>
            (.error (.cee ("There were no errors during installation, but '"
              ++ name ++ "' is still not installed")), [act])
          | .ok (some newObs) =>
            match _check_changes env name version_spec upgrade extras python newObs with
            | .error e => (.error e, [act])
            | .ok (new_changes, _) =>
              if new_changes = Changes.empty then
                (.ok { ret0 with
                    comment := "The tool has been " ++ reStr curr ++ "installed "
                      ++ scopeStr system user,
                    changes := changes }, [act])
              else
                (.error (.cee ("Installation succeeded, but there are still pending changes: "
                  ++ env.dumps new_changes)), [act])

/-- Function `uv_tool.installed`: the body wrapped in
`except (CommandExecutionError, SaltInvocationError)`, which converts those
two classes into a failed result record and lets anything else propagate. -/
def installed (env : StateEnv) (name : String) (version_spec : Option String)
    (upgrade : Bool) (extras : Option ExtraArg) (refresh : Bool)
    (refresh_package : Option String) (force : Bool) (python : Option String)
    (system : Option Bool) (user : Option String) (test : Bool) :
    Except Err Ret × List Action :=
  match installedBody env name version_spec upgrade extras refresh refresh_package
      force python system user test with
  | (.ok r, tr) => (.ok r, tr)
  | (.error (.cee msg), tr) =>
      (.ok { installedRet0 name with result := some false, comment := msg }, tr)
  | (.error (.sie msg), tr) =>
      (.ok { installedRet0 name with result := some false, comment := msg }, tr)
  | (.error .stopIteration, tr) => (.error .stopIteration, tr)

/-- Function `uv_tool.latest`: alias for `installed` with `upgrade=True`. -/
def latest (env : StateEnv) (name : String) (version_spec : Option String)
    (extras : Option ExtraArg) (force : Bool) (python : Option String)
    (system : Option Bool) (user : Option String) (test : Bool) :
    Except Err Ret × List Action :=
  installed env name version_spec true extras false none force python system user test

/-- The initial `ret` dict of `absent`. -/
def absentRet0 (name : String) : Ret :=
  { name := name, result := some true,
    comment := "The tool is already absent", changes := Changes.empty }

/-- The `try` block of `uv_tool.absent`. -/
def absentBody (env : StateEnv) (name : String) (system : Option Bool)
    (user : Option String) (test : Bool) : Except Err Ret × List Action :=
  let ret0 := absentRet0 name
  let system := resolveSystem env system user
  match env.toolIsInstalled false with
  | .error e => (.error e, [])
  | .ok false => (.ok ret0, [])
  | .ok true =>
    if test then
      (.ok { ret0 with
          result := none,
          comment := "The tool would have been removed " ++ scopeStr system user,
          changes := { removed := some name } }, [])
    else
      match env.toolRemove with
      | .error e => (.error e, [.toolRemove name])
      | .ok _ =>
        match env.toolIsInstalled true with
        | .error e => (.error e, [.toolRemove name])
        | .ok true =>
          (.error (.cee "There were no errors during uninstallation, but the tool is still reported as installed"),
            [.toolRemove name])
        | .ok false =>
          (.ok { ret0 with
              comment := "The tool has been removed " ++ scopeStr system user,
              changes := { removed := some name } }, [.toolRemove name])

/-- Function `uv_tool.absent`: the body wrapped in
`except (CommandExecutionError, SaltInvocationError)`. -/
def absent (env : StateEnv) (name : String) (system : Option Bool)
    (user : Option String) (test : Bool) : Except Err Ret × List Action :=
  match absentBody env name system user test with
  | (.ok r, tr) => (.ok r, tr)
  | (.error (.cee msg), tr) =>
      (.ok { absentRet0 name with result := some false, comment := msg }, tr)
  | (.error (.sie msg), tr) =>
      (.ok { absentRet0 name with result := some false, comment := msg }, tr)
  | (.error .stopIteration, tr) => (.error .stopIteration, tr)

/-! ## The execution module `_modules/uv.py` (observer and version resolver) -/

/-- One line of `uv tool list --show-paths --show-version-specifiers` output,
classified the way the loop in `tool_list` classifies it: executable lines
start with `-`, other lines either match `LIST_REGEX` (yielding the
tool/version/required-spec/venv groups) or are logged and skipped. -/
inductive ListLine where
  | dash
  | unparsed
  | entry (tool version : String) (req : Option String) (venv : String)
  deriving Repr, DecidableEq

/-- Environment of subprocess collaborators for `tool_list`: the `uv tool
list` output (pre-classified lines plus the `"No tools installed"` test),
the parsed `uv pip list --format json` output per venv, the
`python --version` output per interpreter, and `Path.resolve`. -/
structure ModEnv where
  noToolsInstalled : Bool
  lines : List ListLine
  pipList : String → List (String × String)
  pyVersionOutput : String → String
  resolvePath : String → String

/-- Python `s.rsplit(" ", maxsplit=1)[-1]`. -/
def rsplitLast (s : String) : String :=
  match (s.splitOn " ").reverse with
  | [] => s
  | x :: _ => x

/-- Python dict insertion: replace in place on an existing key, append
otherwise. -/
def dictInsert {α : Type} (l : List (String × α)) (k : String) (v : α) :
    List (String × α) :=
  if l.any (fun p => p.1 = k) then
    l.map (fun p => if p.1 = k then (k, v) else p)
  else l ++ [(k, v)]

/-- Building `venv_pkgs` from the parsed `uv pip list` entries. -/
def buildDict {α : Type} (entries : List (String × α)) : List (String × α) :=
  entries.foldl (fun acc p => dictInsert acc p.1 p.2) []

/-- The record `tool_list` builds for one matched line. -/
def mkObserved (menv : ModEnv) (version : String) (req : Option String)
    (venv : String) : ObservedState :=
  let venv_py := menv.resolvePath (venv ++ "/bin/python")
  { python := venv_py,
    python_version := rsplitLast (menv.pyVersionOutput venv_py),
    install_spec := match req with
      | some s => if s = "" then none else some s
      | none => none,
    version := version,
    venv_path := venv,
    pkgs := buildDict (menv.pipList venv) }

/-- The `name` argument of `tool_list`: a bare name or a list of names
(`if name is not None and not isinstance(name, list): name = [name]`). -/
inductive NameArg where
  | one (s : String)
  | many (l : List String)
  deriving Repr, DecidableEq

def NameArg.toList : NameArg → List String
  | .one s => [s]
  | .many l => l

/-- What `tool_list` returns: the `tools` dict, or — when exactly one name
was requested and something was found — that name's record itself. -/
inductive ToolListResult where
  | toolsMap (tools : List (String × ObservedState))
  | single (tool : ObservedState)
  deriving Repr, DecidableEq

/-- The line loop of `tool_list`, accumulating the `tools` dict. -/
def toolListLoop (menv : ModEnv) (names : Option (List String)) :
    List ListLine → List (String × ObservedState) → List (String × ObservedState)
  | [], tools => tools
  | line :: rest, tools =>
    match line with
    | .dash => toolListLoop menv names rest tools
    | .unparsed => toolListLoop menv names rest tools
    | .entry tool version req venv =>
      match names with
      | some l =>
          if tool ∉ l then toolListLoop menv names rest tools
          else toolListLoop menv names rest
            (dictInsert tools tool (mkObserved menv version req venv))
      | none =>
          toolListLoop menv names rest
            (dictInsert tools tool (mkObserved menv version req venv))

/-- Function `uv.tool_list`. -/
def tool_list (menv : ModEnv) (name : Option NameArg) : ToolListResult :=
  if menv.noToolsInstalled then .toolsMap []
  else
    let names := name.map NameArg.toList
    let tools := toolListLoop menv names menv.lines []
    match names with
    | some [n] =>
        if tools.isEmpty then .toolsMap tools
        else
          match tools.lookup n with
          | some obs => .single obs
          | none => .toolsMap tools
    | _ => .toolsMap tools

/-- Python truthiness of a `tool_list` return value: a dict is truthy iff
non-empty, and a single tool's record (a six-key dict) is always truthy. -/
def ToolListResult.toBool : ToolListResult → Bool
  | .toolsMap l => !l.isEmpty
  | .single _ => true

/-- Function `uv.tool_is_installed`: `bool(tool_list([name], **kwargs))`. -/
def tool_is_installed (menv : ModEnv) (name : String) : Bool :=
  (tool_list menv (some (.many [name]))).toBool

/-- The decoded PyPI JSON payload consumed by `get_latest_version`. -/
structure PypiResponse where
  infoVersion : String
  releases : List String

/-- The `packaging` semantics for release filtering, as opaque collaborator
predicates: specifier membership and the pre/dev/post-release tests. -/
structure VersionSem where
  inSpec : String → String → Bool
  isPre : String → Bool
  isDev : String → Bool
  isPost : String → Bool

/-- The maximum of a list of strings under Python string comparison; this is
what `next(iter(sorted(xs, reverse=True)))` yields, and `next` raises
`StopIteration` when the list is empty. -/
def maxReleaseString : List String → Option String
  | [] => none
  | v :: rest => some (rest.foldl (fun a b => if a < b then b else a) v)

/-- Function `uv.get_latest_version`: the latest stable release reported by the index,
or the greatest release satisfying `spec` after filtering out
pre/dev/post-releases; raises `StopIteration` when no release qualifies. -/
def get_latest_version (resp : PypiResponse) (sem : VersionSem)
    (spec : Option String) : Except Err String :=
  match spec with
  | none => .ok resp.infoVersion
  | some sp =>
      let candidates := resp.releases.filter
        (fun version => sem.inSpec version sp && !sem.isPre version
          && !sem.isDev version && !sem.isPost version)
      match maxReleaseString candidates with
      | some latestVer => .ok latestVer
      | none => .error .stopIteration

/-! ## Predicates used to state the claims -/

/-- A declared extra is fully satisfied by the observed state: it is present
in the venv's package mapping, its installed version satisfies the declared
specifier (when one is declared), and — when the global upgrade flag is set —
the latest satisfying version resolves and is not strictly newer than the
installed one. These are exactly the conditions under which the extras loop
of `_check_changes` records no miss for it. -/
def extraSatisfied (env : StateEnv) (upgrade : Bool) (curr : ObservedState)
    (e : Extra) : Prop :=
  ∃ inst, curr.pkgs.lookup (extraParts e).1 = some inst ∧
    (∀ sp, (extraParts e).2 = some sp → env.specContains inst sp = true) ∧
    (upgrade = true → ∃ nv,
      env.getLatestVersion (extraParts e).1 (extraParts e).2 = .ok nv ∧
      env.versionLt inst nv = false)

/-- The observed state matches the desired spec in every dimension
`_check_changes` compares apart from the upgrade probe: interpreter,
declared extras, textual version constraint, and constraint satisfaction. -/
def matchesButUpgrade (env : StateEnv)
    (version_spec : Option String) (upgrade : Bool) (extras : Option ExtraArg)
    (python : Option String) (curr : ObservedState) : Prop :=
  (python = none ∨ ∃ p, python = some p ∧ curr.python = env.resolvePath p) ∧
  (∀ ea, extras = some ea → ∀ e ∈ ea.toList, extraSatisfied env upgrade curr e) ∧
  curr.install_spec = version_spec ∧
  (∀ sp, version_spec = some sp → env.specContains curr.version sp = true)

/-! ## Concrete collaborator instances for witnesses and counterexamples -/

/-- A tool observed with no version constraint, no extras and a venv
interpreter at `/venv/bin/python`. -/
def obsBase : ObservedState :=
  { python := "/venv/bin/python", python_version := "3.12.1",
    install_spec := none, version := "1.0.0", venv_path := "/venv", pkgs := [] }

/-- A fully converged collaborator environment: the tool is observed in the
base state before and after any action, every call succeeds, and nothing is
outdated. -/
def envBase : StateEnv :=
  { uidIsRoot := false,
    resolvePath := fun p => p,
    specContains := fun _ _ => true,
    versionLt := fun _ _ => false,
    versionEq := fun a b => a == b,
    getLatestVersion := fun _ _ => .ok "1.0.0",
    toolIsOutdated := fun _ _ => .ok (false, "1.0.0", "1.0.0"),
    toolList := fun _ => .ok (some obsBase),
    toolInstall := .ok (),
    toolUpgrade := .ok (),
    toolIsInstalled := fun _ => .ok false,
    toolRemove := .ok (),
    dumps := fun _ => "changes pending" }

/-- The tool is absent before the corrective action and observed in the base
state afterwards. -/
def envFresh : StateEnv :=
  { envBase with
    toolList := fun after => if after then .ok (some obsBase) else .ok none }

/-- The base observation with a different venv interpreter. -/
def obsOldPython : ObservedState := { obsBase with python := "/old/python" }

/-- The base observation after an interpreter switch. -/
def obsNewPython : ObservedState := { obsBase with python := "/new/python" }

/-- An interpreter-mismatch scenario: the observed interpreter differs from
the declared `/new/python` before the action and matches it afterwards. -/
def envPyMismatch : StateEnv :=
  { envBase with
    toolList := fun after =>
      .ok (some (if after then obsNewPython else obsOldPython)) }

/-- An upgrade scenario: the version resolver reports a newer satisfying
release. -/
def envOutdated : StateEnv :=
  { envBase with
    toolIsOutdated := fun _ _ => .ok (true, "1.0.0", "1.2.0") }

/-- The base observation recorded with an explicit install-time
constraint. -/
def obsPinned : ObservedState := { obsBase with install_spec := some "==1.0" }

/-- A constraint-change scenario: the tool was installed with `==1.0` and
the declaration now carries no constraint. -/
def envPinned : StateEnv :=
  { envBase with toolList := fun _ => .ok (some obsPinned) }

/-- A post-action consistency-failure scenario: the tool is absent before
the action, and after a successful install it is observed without the
declared `==2.0` constraint recorded and at a version the resolver would
replace. -/
def envInconsistent : StateEnv :=
  { envBase with
    getLatestVersion := fun _ _ => .ok "2.0.0",
    toolList := fun after => if after then .ok (some obsBase) else .ok none }

/-- The consistency-failure message `envInconsistent` produces. -/
def msgInconsistent : String :=
  "Installation succeeded, but there are still pending changes: changes pending"

/-- The same scenario, but the executor itself fails with a
`CommandExecutionError` carrying the very same message. -/
def envExternalFail : StateEnv :=
  { envInconsistent with toolInstall := .error (.cee msgInconsistent) }

/-- The observer raises a `SaltInvocationError` (as `_uv` does for invalid
keyword arguments) during the first observation. -/
def envSie : StateEnv :=
  { envBase with
    toolList := fun _ =>
      .error (.sie "The following keyword arguments are invalid: foo") }

/-- The version resolver raises `StopIteration` (no release satisfies the
constraint) while the tool is observed with a stale pinned constraint. -/
def envStop : StateEnv :=
  { envBase with
    toolList := fun _ => .ok (some obsPinned),
    getLatestVersion := fun _ _ => .error .stopIteration }

/-- A removal scenario for the `absent` state: installed before, gone
after. -/
def envRemovable : StateEnv :=
  { envBase with toolIsInstalled := fun after => .ok (!after) }

/-- Parsed `uv tool list` output showing exactly one installed tool, `copier`. -/
def menvSingle : ModEnv :=
  { noToolsInstalled := false,
    lines := [.entry "copier" "1.0.0" none "/venv"],
    pipList := fun _ => [],
    pyVersionOutput := fun _ => "Python 3.12.1",
    resolvePath := fun p => p }

/-- The record `tool_list` builds for the single `copier` line of
`menvSingle`. -/
def obsSingle : ObservedState :=
  { python := "/venv/bin/python", python_version := "3.12.1",
    install_spec := none, version := "1.0.0", venv_path := "/venv", pkgs := [] }

/-- An index payload with releases, none of which will satisfy a
specifier under `semNever`. -/
def respBase : PypiResponse :=
  { infoVersion := "3.0.0", releases := ["1.0.0", "2.0.0"] }

/-- Version semantics under which no release satisfies any specifier. -/
def semNever : VersionSem :=
  { inSpec := fun _ _ => false,
    isPre := fun _ => false, isDev := fun _ => false, isPost := fun _ => false }

/-! ## Helper lemmas about the diff computation -/

theorem exceptOkBind {ε α β : Type} (a : α) (f : α → Except ε β) :
    (Except.ok a : Except ε α) >>= f = f a := rfl

theorem exceptErrorBind {ε α β : Type} (e : ε) (f : α → Except ε β) :
    (Except.error e : Except ε α) >>= f = .error e := rfl

theorem checkExtra_satisfied (env : StateEnv) (upgrade : Bool)
    (curr : ObservedState) (e : Extra) (h : extraSatisfied env upgrade curr e) :
    checkExtra env upgrade curr e = .ok none := by
  obtain ⟨inst, hlook, hspec, hupg⟩ := h
  unfold checkExtra
  cases he : extraParts e with
  | mk pkg sp? =>
    rw [he] at hlook hspec hupg
    simp only at hlook hspec hupg ⊢
    rw [hlook]
    cases sp? with
    | none =>
      cases hu : upgrade with
      | false => simp
      | true =>
        obtain ⟨nv, hnv, hlt⟩ := hupg hu
        simp [hnv, hlt, Except.map]
    | some sp =>
      have := hspec sp rfl
      simp only [this, Bool.not_true, Bool.false_eq_true, if_false]
      cases hu : upgrade with
      | false => simp
      | true =>
        obtain ⟨nv, hnv, hlt⟩ := hupg hu
        simp [hnv, hlt, Except.map]

theorem checkExtras_satisfied (env : StateEnv) (upgrade : Bool)
    (curr : ObservedState) (l : List Extra)
    (h : ∀ e ∈ l, extraSatisfied env upgrade curr e) :
    checkExtras env upgrade curr l = .ok [] := by
  induction l with
  | nil => rfl
  | cons e rest ih =>
    have he := checkExtra_satisfied env upgrade curr e (h e (List.mem_cons_self e rest))
    have hrest := ih (fun x hx => h x (List.mem_cons_of_mem e hx))
    simp only [checkExtras, he, hrest]
    rfl

/-- When everything but the upgrade probe matches, `_check_changes` reduces
to the outcome of the `uv.tool_is_outdated` query. -/
theorem check_changes_matchesButUpgrade (env : StateEnv) (name : String)
    (version_spec : Option String) (upgrade : Bool) (extras : Option ExtraArg)
    (python : Option String) (curr : ObservedState)
    (h : matchesButUpgrade env version_spec upgrade extras python curr)
    (needs : Bool) (cv lv : String)
    (houtd : upgrade = true → env.toolIsOutdated name version_spec = .ok (needs, cv, lv)) :
    _check_changes env name version_spec upgrade extras python curr =
      .ok ({ version := if upgrade && needs then some (cv, lv) else none }, false) := by
  obtain ⟨hpy, hex, hspec, hver⟩ := h
  have hexOk : ∀ ea, extras = some ea →
      checkExtras env upgrade curr ea.toList = .ok [] :=
    fun ea hea => checkExtras_satisfied env upgrade curr ea.toList (hex ea hea)
  unfold _check_changes
  rcases hpy with hp | ⟨p, hp, hres⟩
  · subst hp
    cases hx : extras with
    | none =>
      cases version_spec with
      | none =>
        cases upgrade with
        | false => simp [hspec, exceptOkBind, pure, Except.pure]
        | true => simp [hspec, exceptOkBind, pure, Except.pure, houtd rfl]
      | some sp =>
        cases upgrade with
        | false => simp [hspec, hver sp rfl, exceptOkBind, pure, Except.pure]
        | true =>
          simp [hspec, hver sp rfl, exceptOkBind, pure, Except.pure, houtd rfl]
    | some ea =>
      have hceq := hexOk ea hx
      cases version_spec with
      | none =>
        cases upgrade with
        | false => simp [hspec, hceq, exceptOkBind, pure, Except.pure]
        | true => simp [hspec, hceq, exceptOkBind, pure, Except.pure, houtd rfl]
      | some sp =>
        cases upgrade with
        | false => simp [hspec, hver sp rfl, hceq, exceptOkBind, pure, Except.pure]
        | true =>
          simp [hspec, hver sp rfl, hceq, exceptOkBind, pure, Except.pure, houtd rfl]
  · subst hp
    cases hx : extras with
    | none =>
      cases version_spec with
      | none =>
        cases upgrade with
        | false => simp [hres, hspec, exceptOkBind, pure, Except.pure]
        | true => simp [hres, hspec, exceptOkBind, pure, Except.pure, houtd rfl]
      | some sp =>
        cases upgrade with
        | false => simp [hres, hspec, hver sp rfl, exceptOkBind, pure, Except.pure]
        | true =>
          simp [hres, hspec, hver sp rfl, exceptOkBind, pure, Except.pure, houtd rfl]
    | some ea =>
      have hceq := hexOk ea hx
      cases version_spec with
      | none =>
        cases upgrade with
        | false => simp [hres, hspec, hceq, exceptOkBind, pure, Except.pure]
        | true =>
          simp [hres, hspec, hceq, exceptOkBind, pure, Except.pure, houtd rfl]
      | some sp =>
        cases upgrade with
        | false =>
          simp [hres, hspec, hver sp rfl, hceq, exceptOkBind, pure, Except.pure]
        | true =>
          simp [hres, hspec, hver sp rfl, hceq, exceptOkBind, pure, Except.pure,
            houtd rfl]

/-- When the declared interpreter resolves to a path different from the
observed one and everything else but the upgrade probe matches,
`_check_changes` records only the `python` change (plus the upgrade-probe
outcome) and the `requires_install` flag stays `false`. -/
theorem check_changes_python_mismatch (env : StateEnv) (name : String)
    (version_spec : Option String) (upgrade : Bool) (extras : Option ExtraArg)
    (p : String) (curr : ObservedState)
    (hmis : curr.python ≠ env.resolvePath p)
    (hex : ∀ ea, extras = some ea → ∀ e ∈ ea.toList,
      extraSatisfied env upgrade curr e)
    (hspec : curr.install_spec = version_spec)
    (hver : ∀ sp, version_spec = some sp →
      env.specContains curr.version sp = true)
    (needs : Bool) (cv lv : String)
    (houtd : upgrade = true →
      env.toolIsOutdated name version_spec = .ok (needs, cv, lv)) :
    _check_changes env name version_spec upgrade extras (some p) curr =
      .ok ({ python := some (curr.python, p),
             version := if upgrade && needs then some (cv, lv) else none },
           false) := by
  have hexOk : ∀ ea, extras = some ea →
      checkExtras env upgrade curr ea.toList = .ok [] :=
    fun ea hea => checkExtras_satisfied env upgrade curr ea.toList (hex ea hea)
  unfold _check_changes
  cases hx : extras with
  | none =>
    cases version_spec with
    | none =>
      cases upgrade with
      | false => simp [hmis, hspec, exceptOkBind, pure, Except.pure]
      | true => simp [hmis, hspec, exceptOkBind, pure, Except.pure, houtd rfl]
    | some sp =>
      cases upgrade with
      | false =>
        simp [hmis, hspec, hver sp rfl, exceptOkBind, pure, Except.pure]
      | true =>
        simp [hmis, hspec, hver sp rfl, exceptOkBind, pure, Except.pure,
          houtd rfl]
  | some ea =>
    have hceq := hexOk ea hx
    cases version_spec with
    | none =>
      cases upgrade with
      | false => simp [hmis, hspec, hceq, exceptOkBind, pure, Except.pure]
      | true =>
        simp [hmis, hspec, hceq, exceptOkBind, pure, Except.pure, houtd rfl]
    | some sp =>
      cases upgrade with
      | false =>
        simp [hmis, hspec, hver sp rfl, hceq, exceptOkBind, pure, Except.pure]
      | true =>
        simp [hmis, hspec, hver sp rfl, hceq, exceptOkBind, pure, Except.pure,
          houtd rfl]

/-! ## Structural lemmas about the state functions -/

/-- The `except` wrapper of `installed` never changes the executor-call
trace. -/
theorem installed_snd (env : StateEnv) (name : String) (version_spec : Option String)
    (upgrade : Bool) (extras : Option ExtraArg) (refresh : Bool)
    (refresh_package : Option String) (force : Bool) (python : Option String)
    (system : Option Bool) (user : Option String) (test : Bool) :
    (installed env name version_spec upgrade extras refresh refresh_package force
      python system user test).snd =
    (installedBody env name version_spec upgrade extras refresh refresh_package force
      python system user test).snd := by
  unfold installed
  rcases h : installedBody env name version_spec upgrade extras refresh
    refresh_package force python system user test with ⟨res, tr⟩
  cases res with
  | ok r => rfl
  | error e => cases e <;> rfl

/-- The `except` wrapper of `absent` never changes the executor-call
trace. -/
theorem absent_snd (env : StateEnv) (name : String) (system : Option Bool)
    (user : Option String) (test : Bool) :
    (absent env name system user test).snd =
    (absentBody env name system user test).snd := by
  unfold absent
  rcases h : absentBody env name system user test with ⟨res, tr⟩
  cases res with
  | ok r => rfl
  | error e => cases e <;> rfl

/-- Once `installed` reaches a non-empty diff outside dry-run mode, the trace
is exactly the one dispatched action, whatever the executor and the
re-observation then do. -/
theorem installedBody_dispatch (env : StateEnv) (name : String)
    (version_spec : Option String) (upgrade : Bool) (extras : Option ExtraArg)
    (refresh : Bool) (refresh_package : Option String) (force : Bool)
    (python : Option String) (system : Option Bool) (user : Option String)
    (curr : Option ObservedState) (ch : Changes) (ri : Bool)
    (hobs : env.toolList false = .ok curr)
    (hdiff : installedDiff env name version_spec upgrade extras python curr =
      .ok (ch, ri))
    (hne : ch ≠ Changes.empty) :
    (installedBody env name version_spec upgrade extras refresh refresh_package
      force python system user false).snd =
    [installedAction name upgrade extras refresh refresh_package force python
      curr ri] := by
  unfold installedBody
  simp only [hobs, hdiff]
  rw [if_neg hne]
  simp only [Bool.false_eq_true, if_false]
  split <;> first
    | rfl
    | (rename_i heq; split <;> first
        | rfl
        | (split <;> rfl)
        | (rename_i heq2; split <;> first | rfl | (split <;> rfl)))

/-- In dry-run mode `installed` makes no executor call. -/
theorem installedBody_test_snd (env : StateEnv) (name : String)
    (version_spec : Option String) (upgrade : Bool) (extras : Option ExtraArg)
    (refresh : Bool) (refresh_package : Option String) (force : Bool)
    (python : Option String) (system : Option Bool) (user : Option String) :
    (installedBody env name version_spec upgrade extras refresh refresh_package
      force python system user true).snd = [] := by
  unfold installedBody
  split
  · rfl
  · split
    · rfl
    · split
      · rfl
      · rfl

/-- In dry-run mode `absent` makes no executor call. -/
theorem absentBody_test_snd (env : StateEnv) (name : String)
    (system : Option Bool) (user : Option String) :
    (absentBody env name system user true).snd = [] := by
  unfold absentBody
  split
  · rfl
  · rfl
  · rfl

/-- Every successful outcome of the `try` block of `installed` carries
`result` `True` (no-op or converged) or `None` (dry-run); `False` only ever
comes from the exception handler. -/
theorem installedBody_ok_result (env : StateEnv) (name : String)
    (version_spec : Option String) (upgrade : Bool) (extras : Option ExtraArg)
    (refresh : Bool) (refresh_package : Option String) (force : Bool)
    (python : Option String) (system : Option Bool) (user : Option String)
    (test : Bool) (r : Ret)
    (h : (installedBody env name version_spec upgrade extras refresh
      refresh_package force python system user test).fst = .ok r) :
    r.result = some true ∨ r.result = none := by
  unfold installedBody at h
  repeat' split at h
  all_goals try (rcases hti : env.toolInstall with e | u <;> rw [hti] at h <;>
    repeat' split at h)
  all_goals try (rcases htu : env.toolUpgrade with e | u <;> rw [htu] at h <;>
    repeat' split at h)
  all_goals try simp at h
  all_goals try subst h
  all_goals simp [installedRet0, absentRet0]

/-- Every successful outcome of the `try` block of `absent` carries `result`
`True` or `None`. -/
theorem absentBody_ok_result (env : StateEnv) (name : String)
    (system : Option Bool) (user : Option String) (test : Bool) (r : Ret)
    (h : (absentBody env name system user test).fst = .ok r) :
    r.result = some true ∨ r.result = none := by
  unfold absentBody at h
  repeat' split at h
  all_goals try (rcases htr : env.toolRemove with e | u <;> rw [htr] at h <;>
    repeat' split at h)
  all_goals try simp at h
  all_goals try subst h
  all_goals simp [installedRet0, absentRet0]

/-! ## Claim theorems -/

/-- Claim C4: for every desired spec whose tool has no observed state, the
computed diff is exactly the single `installed` marker, the reinstall flag
is `true` (the other diff rules are skipped — `_check_changes` is not even
consulted), and the dispatched action is the install. -/
theorem claim_C4_fresh_install (env : StateEnv) (name : String)
    (version_spec : Option String) (upgrade : Bool) (extras : Option ExtraArg)
    (refresh : Bool) (refresh_package : Option String) (force : Bool)
    (python : Option String) (system : Option Bool) (user : Option String)
    (hobs : env.toolList false = .ok none) :
    installedDiff env name version_spec upgrade extras python none =
      .ok ({ installed := some name }, true) ∧
    (installed env name version_spec upgrade extras refresh refresh_package force
      python system user false).snd =
      [Action.toolInstall name false force refresh refresh_package
        (extras.map (fun ea => ea.toList.map flattenExtra)) python] := by
  refine ⟨rfl, ?_⟩
  rw [installed_snd]
  rw [installedBody_dispatch env name version_spec upgrade extras refresh
    refresh_package force python system user none { installed := some name } true
    hobs rfl (by simp [Changes.empty])]
  rfl

/-- Witness for C4 at a concrete fresh-install environment. -/
theorem claim_C4_fresh_install_witness :
    installedDiff envFresh "copier" none false none none none =
      .ok ({ installed := some "copier" }, true) ∧
    (installed envFresh "copier" none false none false none false
      none none none false).snd =
      [Action.toolInstall "copier" false false false none none none] :=
  claim_C4_fresh_install envFresh "copier" none false none false none false
    none none none rfl

/-- Claim C3: with the dry-run flag set, neither `installed` nor `absent` ever
dispatches an executor action, and whenever the diff is non-empty the
returned result flag is the pending value `None` with the would-be changes
reported. -/
theorem claim_C3_dry_run (env : StateEnv) (name : String)
    (version_spec : Option String) (upgrade : Bool) (extras : Option ExtraArg)
    (refresh : Bool) (refresh_package : Option String) (force : Bool)
    (python : Option String) (system : Option Bool) (user : Option String) :
    (installed env name version_spec upgrade extras refresh refresh_package force
      python system user true).snd = [] ∧
    (absent env name system user true).snd = [] ∧
    (∀ curr ch ri, env.toolList false = .ok curr →
      installedDiff env name version_spec upgrade extras python curr =
        .ok (ch, ri) →
      ch ≠ Changes.empty →
      (installed env name version_spec upgrade extras refresh refresh_package
        force python system user true).fst =
        .ok { name := name, result := none,
              comment := "The tool would have been " ++ reStr curr
                ++ "installed " ++ scopeStr (resolveSystem env system user) user,
              changes := ch }) ∧
    (env.toolIsInstalled false = .ok true →
      (absent env name system user true).fst =
        .ok { name := name, result := none,
              comment := "The tool would have been removed "
                ++ scopeStr (resolveSystem env system user) user,
              changes := { removed := some name } }) := by
  refine ⟨by rw [installed_snd, installedBody_test_snd],
    by rw [absent_snd, absentBody_test_snd], ?_, ?_⟩
  case refine_2 =>
    intro hinst
    have hbody : absentBody env name system user true =
        (.ok { name := name, result := none,
               comment := "The tool would have been removed "
                 ++ scopeStr (resolveSystem env system user) user,
               changes := { removed := some name } }, []) := by
      unfold absentBody
      simp only [hinst]
      rfl
    unfold absent
    rw [hbody]
  intro curr ch ri hobs hdiff hne
  have hbody : installedBody env name version_spec upgrade extras refresh
      refresh_package force python system user true =
      (.ok { name := name, result := none,
             comment := "The tool would have been " ++ reStr curr
               ++ "installed " ++ scopeStr (resolveSystem env system user) user,
             changes := ch }, []) := by
    unfold installedBody
    simp only [hobs, hdiff]
    rw [if_neg hne]
    rfl
  unfold installed
  rw [hbody]

/-- Witness for C3 at a concrete environment with a pending install. -/
theorem claim_C3_dry_run_witness :
    (installed envFresh "copier" none false none false none false
      none none none true).snd = [] ∧
    (absent envFresh "copier" none none true).snd = [] ∧
    (installed envFresh "copier" none false none false none false
      none none none true).fst =
      .ok { name := "copier", result := none,
            comment := "The tool would have been installed for user None",
            changes := { installed := some "copier" } } ∧
    (absent envRemovable "copier" none none true).fst =
      .ok { name := "copier", result := none,
            comment := "The tool would have been removed for user None",
            changes := { removed := some "copier" } } := by
  obtain ⟨h1, h2, h3, _⟩ := claim_C3_dry_run envFresh "copier" none false none
    false none false none none none
  obtain ⟨_, _, _, h4⟩ := claim_C3_dry_run envRemovable "copier" none false
    none false none false none none none
  refine ⟨h1, h2, ?_, ?_⟩
  · have := h3 none { installed := some "copier" } true rfl rfl
      (by simp [Changes.empty])
    simpa [reStr, scopeStr, resolveSystem, userRepr, envFresh, envBase]
      using this
  · have := h4 rfl
    simpa [scopeStr, resolveSystem, userRepr, envRemovable, envBase] using this

/-- Claim C10: a result record with the success flag `False` always carries an
empty changes mapping, for both `installed` and `absent`. -/
theorem claim_C10_failed_no_changes (env : StateEnv) (name : String)
    (version_spec : Option String) (upgrade : Bool) (extras : Option ExtraArg)
    (refresh : Bool) (refresh_package : Option String) (force : Bool)
    (python : Option String) (system : Option Bool) (user : Option String)
    (test : Bool) :
    (∀ r, (installed env name version_spec upgrade extras refresh
        refresh_package force python system user test).fst = .ok r →
      r.result = some false → r.changes = Changes.empty) ∧
    (∀ r, (absent env name system user test).fst = .ok r →
      r.result = some false → r.changes = Changes.empty) := by
  constructor
  · intro r h hres
    unfold installed at h
    rcases hb : installedBody env name version_spec upgrade extras refresh
      refresh_package force python system user test with ⟨res, tr⟩
    rw [hb] at h
    cases res with
    | ok r0 =>
      simp only [Except.ok.injEq] at h
      rw [← h] at hres
      rcases installedBody_ok_result env name version_spec upgrade extras
          refresh refresh_package force python system user test r0
          (by rw [hb]) with h0 | h0 <;>
        rw [h0] at hres <;> simp at hres
    | error e => cases e with
      | cee m => simp only [Except.ok.injEq] at h; rw [← h]; rfl
      | sie m => simp only [Except.ok.injEq] at h; rw [← h]; rfl
      | stopIteration => simp at h
  · intro r h hres
    unfold absent at h
    rcases hb : absentBody env name system user test with ⟨res, tr⟩
    rw [hb] at h
    cases res with
    | ok r0 =>
      simp only [Except.ok.injEq] at h
      rw [← h] at hres
      rcases absentBody_ok_result env name system user test r0
          (by rw [hb]) with h0 | h0 <;>
        rw [h0] at hres <;> simp at hres
    | error e => cases e with
      | cee m => simp only [Except.ok.injEq] at h; rw [← h]; rfl
      | sie m => simp only [Except.ok.injEq] at h; rw [← h]; rfl
      | stopIteration => simp at h

/-- Witness for C10 at an environment whose observer raises a
`SaltInvocationError`, producing a failed result record. -/
theorem claim_C10_failed_no_changes_witness :
    ({ name := "copier", result := some false,
       comment := "The following keyword arguments are invalid: foo",
       changes := Changes.empty } : Ret).changes = Changes.empty :=
  (claim_C10_failed_no_changes envSie "copier" none false none false none
    false none none none false).1 _ rfl rfl

/-- Claim C5: when the observed state equals the desired spec in every compared
dimension (interpreter, extras, textual constraint, constraint satisfaction,
and no newer satisfying version when upgrade is set), the diff is empty and
`installed` is a no-op: no executor call, unchanged success result — so a
second run with the same desired state takes no action either. -/
theorem claim_C5_idempotent (env : StateEnv) (name : String)
    (version_spec : Option String) (upgrade : Bool) (extras : Option ExtraArg)
    (refresh : Bool) (refresh_package : Option String) (force : Bool)
    (python : Option String) (system : Option Bool) (user : Option String)
    (test : Bool) (curr : ObservedState)
    (hobs : env.toolList false = .ok (some curr))
    (hmatch : matchesButUpgrade env version_spec upgrade extras python curr)
    (hupg : upgrade = true →
      ∃ cv lv, env.toolIsOutdated name version_spec = .ok (false, cv, lv)) :
    _check_changes env name version_spec upgrade extras python curr =
      .ok (Changes.empty, false) ∧
    installed env name version_spec upgrade extras refresh refresh_package force
      python system user test = (.ok (installedRet0 name), []) := by
  have hchk : _check_changes env name version_spec upgrade extras python curr =
      .ok (Changes.empty, false) := by
    cases hu : upgrade with
    | true =>
      obtain ⟨cv, lv, houtd⟩ := hupg hu
      have := check_changes_matchesButUpgrade env name version_spec true extras
        python curr (hu ▸ hmatch) false cv lv (fun _ => houtd)
      simpa using this
    | false =>
      have := check_changes_matchesButUpgrade env name version_spec false extras
        python curr (hu ▸ hmatch) false "" "" (fun hc => Bool.noConfusion hc)
      simpa using this
  refine ⟨hchk, ?_⟩
  unfold installed installedBody
  simp only [hobs, installedDiff, hchk]
  rfl

/-- Witness for C5 at a fully converged concrete environment. -/
theorem claim_C5_idempotent_witness :
    _check_changes envBase "copier" none false none none obsBase =
      .ok (Changes.empty, false) ∧
    installed envBase "copier" none false none false none false
      none none none false = (.ok (installedRet0 "copier"), []) :=
  claim_C5_idempotent envBase "copier" none false none false none false
    none none none false obsBase rfl
    ⟨Or.inl rfl, fun ea hea => Option.noConfusion hea, rfl, fun sp hsp => Option.noConfusion hsp⟩
    (fun hc => Bool.noConfusion hc)

/-- Claim C6: with the upgrade flag set and no other mismatch, the diff carries
at most the single `version` key (no extras, interpreter or constraint
keys), the reinstall flag stays `false`, and a non-empty diff dispatches the
in-place upgrade, never a reinstall. -/
theorem claim_C6_upgrade_only (env : StateEnv) (name : String)
    (version_spec : Option String) (extras : Option ExtraArg) (refresh : Bool)
    (refresh_package : Option String) (force : Bool) (python : Option String)
    (system : Option Bool) (user : Option String) (curr : ObservedState)
    (needs : Bool) (cv lv : String)
    (hobs : env.toolList false = .ok (some curr))
    (hmatch : matchesButUpgrade env version_spec true extras python curr)
    (houtd : env.toolIsOutdated name version_spec = .ok (needs, cv, lv)) :
    _check_changes env name version_spec true extras python curr =
      .ok ({ version := if needs then some (cv, lv) else none }, false) ∧
    (needs = true →
      (installed env name version_spec true extras refresh refresh_package force
        python system user false).snd = [Action.toolUpgrade name true python]) := by
  have hchk := check_changes_matchesButUpgrade env name version_spec true extras
    python curr hmatch needs cv lv (fun _ => houtd)
  simp only [Bool.true_and] at hchk
  refine ⟨hchk, ?_⟩
  intro hneeds
  subst hneeds
  rw [installed_snd]
  rw [installedBody_dispatch env name version_spec true extras refresh
    refresh_package force python system user (some curr)
    { version := some (cv, lv) } false hobs
    (by simpa using hchk) (by simp [Changes.empty])]
  rfl

/-- Witness for C6 at a concrete environment whose resolver reports a newer
satisfying release. -/
theorem claim_C6_upgrade_only_witness :
    _check_changes envOutdated "copier" none true none none obsBase =
      .ok ({ version := some ("1.0.0", "1.2.0") }, false) ∧
    (installed envOutdated "copier" none true none false none false
      none none none false).snd = [Action.toolUpgrade "copier" true none] := by
  obtain ⟨h1, h2⟩ := claim_C6_upgrade_only envOutdated "copier" none none false
    none false none none none obsBase true "1.0.0" "1.2.0" rfl
    ⟨Or.inl rfl, fun ea hea => Option.noConfusion hea, rfl, fun sp hsp => Option.noConfusion hsp⟩
    rfl
  exact ⟨by simpa using h1, h2 rfl⟩

/-- Claim C2 counterexample: with an interpreter mismatch as the only
difference, the diff records the `python` change but the reinstall flag is
`false`, and the dispatched action is `uv.tool_upgrade` — not the
`uv.tool_install` reinstall the claim requires. -/
theorem claim_C2_counterexample :
    _check_changes envPyMismatch "copier" none false none (some "/new/python")
      obsOldPython =
      .ok ({ python := some ("/old/python", "/new/python") }, false) ∧
    (installed envPyMismatch "copier" none false none false none false
      (some "/new/python") none none false).snd =
      [Action.toolUpgrade "copier" false (some "/new/python")] :=
  ⟨rfl, rfl⟩

/-- Claim C2 amended: an interpreter mismatch (declared path resolved to
canonical form differing from the observed one) records the `python` change,
but does *not* set the requires-reinstall flag; when it is the only
mismatch, the dispatched corrective action is the in-place
`uv.tool_upgrade` (with the interpreter passed through), not a reinstall. -/
theorem claim_C2_python_no_reinstall (env : StateEnv) (name : String)
    (version_spec : Option String) (upgrade : Bool) (extras : Option ExtraArg)
    (refresh : Bool) (refresh_package : Option String) (force : Bool)
    (system : Option Bool) (user : Option String) (p : String)
    (curr : ObservedState)
    (hobs : env.toolList false = .ok (some curr))
    (hmis : curr.python ≠ env.resolvePath p)
    (hex : ∀ ea, extras = some ea → ∀ e ∈ ea.toList,
      extraSatisfied env upgrade curr e)
    (hspec : curr.install_spec = version_spec)
    (hver : ∀ sp, version_spec = some sp →
      env.specContains curr.version sp = true)
    (hupg : upgrade = true →
      ∃ cv lv, env.toolIsOutdated name version_spec = .ok (false, cv, lv)) :
    _check_changes env name version_spec upgrade extras (some p) curr =
      .ok ({ python := some (curr.python, p) }, false) ∧
    (installed env name version_spec upgrade extras refresh refresh_package
      force (some p) system user false).snd =
      [Action.toolUpgrade name upgrade (some p)] := by
  have hchk : _check_changes env name version_spec upgrade extras (some p)
      curr = .ok ({ python := some (curr.python, p) }, false) := by
    cases hu : upgrade with
    | true =>
      obtain ⟨cv, lv, houtd⟩ := hupg hu
      have := check_changes_python_mismatch env name version_spec true extras p
        curr hmis (hu ▸ hex) hspec hver false cv lv (fun _ => houtd)
      simpa using this
    | false =>
      have := check_changes_python_mismatch env name version_spec false extras
        p curr hmis (hu ▸ hex) hspec hver false "" ""
        (fun hc => Bool.noConfusion hc)
      simpa using this
  refine ⟨hchk, ?_⟩
  rw [installed_snd, installedBody_dispatch env name version_spec upgrade
    extras refresh refresh_package force (some p) system user (some curr)
    { python := some (curr.python, p) } false hobs
    (by simpa [installedDiff] using hchk) (by simp [Changes.empty])]
  rfl

/-- Witness for the amended C2 at a concrete interpreter-mismatch
environment. -/
theorem claim_C2_python_no_reinstall_witness :
    _check_changes envPyMismatch "tool" none false none (some "/new/python")
      obsOldPython =
      .ok ({ python := some ("/old/python", "/new/python") }, false) ∧
    (installed envPyMismatch "tool" none false none false none false
      (some "/new/python") none none false).snd =
      [Action.toolUpgrade "tool" false (some "/new/python")] :=
  claim_C2_python_no_reinstall envPyMismatch "tool" none false none false none
    false none none "/new/python" obsOldPython rfl (by decide)
    (fun ea hea => Option.noConfusion hea) rfl
    (fun sp hsp => Option.noConfusion hsp) (fun hc => Bool.noConfusion hc)

/-- Claim C7 counterexample: on a fresh install (tool not previously
installed) the `reinstall` argument passed to `uv.tool_install` is `false`,
not the unconditional `true` the claim requires. -/
theorem claim_C7_counterexample :
    (installed envFresh "pipx" none false none false none false
      none none none false).snd =
      [Action.toolInstall "pipx" false false false none none none] ∧
    (installed envFresh "pipx" none false none false none false
      none none none false).snd ≠
      [Action.toolInstall "pipx" true false false none none none] :=
  ⟨rfl, by decide⟩

/-- Claim C7 amended: whenever `installed` dispatches the install action, the
`reinstall` argument equals `bool(curr)` — it is set exactly when the tool
was previously installed, not unconditionally. -/
theorem claim_C7_reinstall_is_bool_curr (env : StateEnv) (name : String)
    (version_spec : Option String) (upgrade : Bool) (extras : Option ExtraArg)
    (refresh : Bool) (refresh_package : Option String) (force : Bool)
    (python : Option String) (system : Option Bool) (user : Option String)
    (curr : Option ObservedState) (ch : Changes)
    (hobs : env.toolList false = .ok curr)
    (hdiff : installedDiff env name version_spec upgrade extras python curr =
      .ok (ch, true))
    (hne : ch ≠ Changes.empty) :
    (installed env name version_spec upgrade extras refresh refresh_package
      force python system user false).snd =
      [Action.toolInstall name curr.isSome force refresh refresh_package
        (extras.map (fun ea => ea.toList.map flattenExtra)) python] := by
  rw [installed_snd, installedBody_dispatch env name version_spec upgrade
    extras refresh refresh_package force python system user curr ch true hobs
    hdiff hne]
  rfl

/-- Witness for the amended C7 at a concrete environment where the tool is
already installed with a stale constraint, so `reinstall` is `true`. -/
theorem claim_C7_reinstall_is_bool_curr_witness :
    (installed envPinned "copier" none false none false none false
      none none none false).snd =
      [Action.toolInstall "copier" true false false none none none] :=
  claim_C7_reinstall_is_bool_curr envPinned "copier" none false none false
    none false none none none (some obsPinned)
    { version_spec := some (some "==1.0", none) } rfl rfl (by decide)

/-- Claim C1 counterexample: a post-action consistency failure is raised as
`CommandExecutionError` — the *same* class as an external-command failure —
and the operation boundary catches it and translates it into exactly the
same failed result record an external-command failure with the same message
produces, so it is not a distinct error class with distinct handling. -/
theorem claim_C1_counterexample :
    (installedBody envInconsistent "copier" (some "==2.0") false none false
      none false none none none false).fst = .error (.cee msgInconsistent) ∧
    (installed envInconsistent "copier" (some "==2.0") false none false none
      false none none none false).fst =
      .ok { name := "copier", result := some false, comment := msgInconsistent,
            changes := Changes.empty } ∧
    (installed envExternalFail "copier" (some "==2.0") false none false none
      false none none none false).fst =
      .ok { name := "copier", result := some false, comment := msgInconsistent,
            changes := Changes.empty } :=
  ⟨rfl, rfl, rfl⟩

/-- Claim C1 amended: after a corrective action the executor reports as
successful, `installed` re-observes the tool and recomputes the diff against
the same desired spec; if the diff is still non-empty (or the tool is still
absent) the run fails: the body raises a `CommandExecutionError` — the same
class used for external-command failures — which the operation boundary
catches and converts into a failed result record (success flag `False`,
error text as comment, empty changes), with no retry: the trace holds
exactly the one dispatched action. -/
theorem claim_C1_consistency_failure (env : StateEnv) (name : String)
    (version_spec : Option String) (upgrade : Bool) (extras : Option ExtraArg)
    (refresh : Bool) (refresh_package : Option String) (force : Bool)
    (python : Option String) (system : Option Bool) (user : Option String)
    (curr : Option ObservedState) (ch : Changes) (ri : Bool)
    (newCurr : Option ObservedState)
    (hobs : env.toolList false = .ok curr)
    (hdiff : installedDiff env name version_spec upgrade extras python curr =
      .ok (ch, ri))
    (hne : ch ≠ Changes.empty)
    (hact : (if ri then env.toolInstall else env.toolUpgrade) = .ok ())
    (hre : env.toolList true = .ok newCurr)
    (hfail : newCurr = none ∨ ∃ c2 ch2 ri2, newCurr = some c2 ∧
      _check_changes env name version_spec upgrade extras python c2 =
        .ok (ch2, ri2) ∧ ch2 ≠ Changes.empty) :
    ∃ msg,
      (installedBody env name version_spec upgrade extras refresh
        refresh_package force python system user false).fst =
        .error (.cee msg) ∧
      installed env name version_spec upgrade extras refresh refresh_package
        force python system user false =
        (.ok { installedRet0 name with result := some false, comment := msg },
         [installedAction name upgrade extras refresh refresh_package force
           python curr ri]) := by
  rcases hfail with hnone | ⟨c2, ch2, ri2, hc2, hchk2, hne2⟩
  · subst hnone
    have hbody : installedBody env name version_spec upgrade extras refresh
        refresh_package force python system user false =
        (.error (.cee ("There were no errors during installation, but '"
          ++ name ++ "' is still not installed")),
         [installedAction name upgrade extras refresh refresh_package force
           python curr ri]) := by
      unfold installedBody
      simp only [hobs, hdiff, hact, hre]
      rw [if_neg hne]
      rfl
    refine ⟨_, by rw [hbody], ?_⟩
    unfold installed
    rw [hbody]
  · subst hc2
    have hbody : installedBody env name version_spec upgrade extras refresh
        refresh_package force python system user false =
        (.error (.cee ("Installation succeeded, but there are still pending changes: "
          ++ env.dumps ch2)),
         [installedAction name upgrade extras refresh refresh_package force
           python curr ri]) := by
      unfold installedBody
      simp only [hobs, hdiff, hact, hre, hchk2]
      rw [if_neg hne, if_neg hne2]
      rfl
    refine ⟨_, by rw [hbody], ?_⟩
    unfold installed
    rw [hbody]

/-- Witness for the amended C1 at the concrete inconsistent environment. -/
theorem claim_C1_consistency_failure_witness :
    ∃ msg,
      (installedBody envInconsistent "copier" (some "==2.0") false none false
        none false none none none false).fst = .error (.cee msg) ∧
      installed envInconsistent "copier" (some "==2.0") false none false none
        false none none none false =
        (.ok { installedRet0 "copier" with result := some false, comment := msg },
         [installedAction "copier" false none false none false none none
           true]) :=
  claim_C1_consistency_failure envInconsistent "copier" (some "==2.0") false
    none false none false none none none none
    { installed := some "copier" } true (some obsBase) rfl rfl
    (by simp [Changes.empty]) rfl rfl
    (Or.inr ⟨obsBase,
      { version_spec := some (none, some "==2.0"),
        version := some ("1.0.0", "2.0.0") }, true, rfl, rfl,
      by simp [Changes.empty]⟩)

/-- Claim C8 counterexample: an invocation error — `_uv` raising
`SaltInvocationError` for malformed keyword arguments during an `installed`
invocation — is caught at the operation boundary and converted into a
failed result record, not propagated to the caller. -/
theorem claim_C8_counterexample :
    (installed envSie "copier" none false none false none false
      none none none false).fst =
      .ok { name := "copier", result := some false,
            comment := "The following keyword arguments are invalid: foo",
            changes := Changes.empty } ∧
    ∀ e, (installed envSie "copier" none false none false none false
      none none none false).fst ≠ .error e := by
  refine ⟨rfl, ?_⟩
  intro e h
  rw [show (installed envSie "copier" none false none false none false
    none none none false).fst =
    .ok { name := "copier", result := some false,
          comment := "The following keyword arguments are invalid: foo",
          changes := Changes.empty } from rfl] at h
  exact Except.noConfusion h

/-- Claim C8 amended: a version-resolution failure — `get_latest_version`
raising `StopIteration` because no release satisfies the declared
constraint — propagates uncaught out of `installed` (the `except` clause
names only `CommandExecutionError` and `SaltInvocationError`), while
`SaltInvocationError`-class invocation errors are caught at the boundary
and converted into failed result records. -/
theorem claim_C8_stopiteration_propagates
    (resp : PypiResponse) (sem : VersionSem) (sp : String)
    (hnone : ∀ v ∈ resp.releases,
      (sem.inSpec v sp && !sem.isPre v && !sem.isDev v && !sem.isPost v)
        = false)
    (env : StateEnv) (name : String) (version_spec : Option String)
    (upgrade : Bool) (refresh : Bool) (refresh_package : Option String)
    (force : Bool) (python : Option String) (system : Option Bool)
    (user : Option String) (test : Bool) (curr : ObservedState)
    (hobs : env.toolList false = .ok (some curr))
    (hmis : curr.install_spec ≠ version_spec)
    (hglv : env.getLatestVersion name version_spec = .error .stopIteration) :
    get_latest_version resp sem (some sp) = .error .stopIteration ∧
    installed env name version_spec upgrade none refresh refresh_package force
      python system user test = (.error .stopIteration, []) := by
  constructor
  · unfold get_latest_version
    have hfil : resp.releases.filter
        (fun version => sem.inSpec version sp && !sem.isPre version
          && !sem.isDev version && !sem.isPost version) = [] := by
      rw [List.filter_eq_nil]
      intro v hv
      simp [hnone v hv]
    simp only [hfil]
    rfl
  · have hchk : _check_changes env name version_spec upgrade none python curr =
        .error .stopIteration := by
      unfold _check_changes
      cases python <;>
        simp [hmis, hglv, exceptOkBind, exceptErrorBind, pure, Except.pure,
          Except.bind]
    unfold installed installedBody
    simp only [hobs, installedDiff, hchk]

/-- Witness for the amended C8 at a concrete environment whose resolver
raises `StopIteration` on a constraint change. -/
theorem claim_C8_stopiteration_propagates_witness :
    get_latest_version respBase semNever (some "<1") =
      .error .stopIteration ∧
    installed envStop "copier" none false none false none false
      none none none false = (.error .stopIteration, []) :=
  claim_C8_stopiteration_propagates respBase semNever "<1" (by decide)
    envStop "copier" none false false none false none none none false
    obsPinned rfl (by decide) rfl

/-! ## Lemmas about the observer (`uv.tool_list`) -/

theorem dictInsert_keys {α : Type} (tools : List (String × α)) (k : String)
    (v : α) (p : String × α) (h : p ∈ dictInsert tools k v) :
    p.1 = k ∨ p ∈ tools := by
  unfold dictInsert at h
  split at h
  · rcases List.mem_map.mp h with ⟨q, hq, hfq⟩
    by_cases hqk : q.1 = k
    · rw [if_pos hqk] at hfq
      left
      rw [← hfq]
    · rw [if_neg hqk] at hfq
      right
      rw [← hfq]
      exact hq
  · rcases List.mem_append.mp h with h | h
    · right; exact h
    · left
      rw [List.mem_singleton.mp h]

theorem dictInsert_ne_nil {α : Type} (tools : List (String × α)) (k : String)
    (v : α) : dictInsert tools k v ≠ [] := by
  unfold dictInsert
  split
  · rename_i hany
    intro hc
    rw [List.map_eq_nil] at hc
    subst hc
    simp at hany
  · simp

theorem toolListLoop_ne_nil_of_acc (menv : ModEnv)
    (names : Option (List String)) :
    ∀ lines (tools : List (String × ObservedState)), tools ≠ [] →
      toolListLoop menv names lines tools ≠ [] := by
  intro lines
  induction lines with
  | nil => intro tools h; exact h
  | cons line rest ih =>
    intro tools h
    cases line with
    | dash => exact ih tools h
    | unparsed => exact ih tools h
    | entry tool version req venv =>
      cases names with
      | none => exact ih _ (dictInsert_ne_nil _ _ _)
      | some l =>
        by_cases hm : tool ∈ l
        · simp only [toolListLoop, hm, not_true_eq_false, if_false]
          exact ih _ (dictInsert_ne_nil _ _ _)
        · simp only [toolListLoop, hm, not_false_eq_true, if_true]
          exact ih tools h

theorem toolListLoop_entry_ne_nil (menv : ModEnv) (l : List String) :
    ∀ lines (tools : List (String × ObservedState)) (t v : String)
      (r : Option String) (ve : String),
      ListLine.entry t v r ve ∈ lines → t ∈ l →
      toolListLoop menv (some l) lines tools ≠ [] := by
  intro lines
  induction lines with
  | nil => intro tools t v r ve h _; cases h
  | cons line rest ih =>
    intro tools t v r ve hmem hl
    rcases List.mem_cons.mp hmem with heq | hmem2
    · rw [← heq]
      simp only [toolListLoop, hl, not_true_eq_false, if_false]
      exact toolListLoop_ne_nil_of_acc menv (some l) rest _
        (dictInsert_ne_nil _ _ _)
    · cases line with
      | dash => exact ih tools t v r ve hmem2 hl
      | unparsed => exact ih tools t v r ve hmem2 hl
      | entry t2 v2 r2 ve2 =>
        by_cases hm : t2 ∈ l
        · simp only [toolListLoop, hm, not_true_eq_false, if_false]
          exact toolListLoop_ne_nil_of_acc menv (some l) rest _
            (dictInsert_ne_nil _ _ _)
        · simp only [toolListLoop, hm, not_false_eq_true, if_true]
          exact ih tools t v r ve hmem2 hl

theorem toolListLoop_keys (menv : ModEnv) (l : List String) :
    ∀ lines (tools : List (String × ObservedState)),
      (∀ p ∈ tools, p.1 ∈ l) →
      ∀ p ∈ toolListLoop menv (some l) lines tools, p.1 ∈ l := by
  intro lines
  induction lines with
  | nil => intro tools h p hp; exact h p hp
  | cons line rest ih =>
    intro tools h p hp
    cases line with
    | dash => exact ih tools h p hp
    | unparsed => exact ih tools h p hp
    | entry tool version req venv =>
      by_cases hm : tool ∈ l
      · have hp2 : p ∈ toolListLoop menv (some l) rest
            (dictInsert tools tool (mkObserved menv version req venv)) := by
          simpa [toolListLoop, hm] using hp
        refine ih _ ?_ p hp2
        intro q hq
        rcases dictInsert_keys _ _ _ q hq with h1 | h1
        · rw [h1]; exact hm
        · exact h q h1
      · have hp2 : p ∈ toolListLoop menv (some l) rest tools := by
          simpa [toolListLoop, hm] using hp
        exact ih tools h p hp2

theorem toolListLoop_no_match (menv : ModEnv) (l : List String) :
    ∀ lines, (∀ t v r ve, ListLine.entry t v r ve ∈ lines → t ∉ l) →
      ∀ tools, toolListLoop menv (some l) lines tools = tools := by
  intro lines
  induction lines with
  | nil => intro _ tools; rfl
  | cons line rest ih =>
    intro hno tools
    cases line with
    | dash =>
      exact ih (fun t v r ve h => hno t v r ve (List.mem_cons_of_mem _ h))
        tools
    | unparsed =>
      exact ih (fun t v r ve h => hno t v r ve (List.mem_cons_of_mem _ h))
        tools
    | entry t v r ve =>
      have ht : t ∉ l := hno t v r ve (List.mem_cons_self _ _)
      simp only [toolListLoop, ht, not_false_eq_true, if_true]
      exact ih (fun t2 v2 r2 ve2 h => hno t2 v2 r2 ve2
        (List.mem_cons_of_mem _ h)) tools

/-- When the tools dict comes out empty, `tool_list` returns the empty
mapping. -/
theorem tool_list_empty_of_loop_nil (menv : ModEnv) (n : String)
    (hemp : toolListLoop menv (some [n]) menv.lines [] = []) :
    tool_list menv (some (.many [n])) = .toolsMap [] := by
  unfold tool_list
  cases hnt : menv.noToolsInstalled with
  | true => rfl
  | false =>
    simp [show Option.map NameArg.toList (some (NameArg.many [n])) = some [n]
      from rfl, hemp]

/-- When the tools dict comes out non-empty for a single requested name,
`tool_list` unwraps and returns that name's record. -/
theorem tool_list_single_of_loop_ne_nil (menv : ModEnv) (n : String)
    (hnt : menv.noToolsInstalled = false)
    (hne : toolListLoop menv (some [n]) menv.lines [] ≠ []) :
    ∃ obs, tool_list menv (some (.many [n])) = .single obs := by
  have hkeys := toolListLoop_keys menv [n] menv.lines []
    (by intro p hp; cases hp)
  rcases hq : toolListLoop menv (some [n]) menv.lines [] with _ | ⟨⟨k, o⟩, rest⟩
  · exact absurd hq hne
  · have hk : k = n := by
      have := hkeys ⟨k, o⟩ (by rw [hq]; exact List.mem_cons_self _ _)
      simpa using this
    refine ⟨o, ?_⟩
    unfold tool_list
    rw [hnt]
    simp [show Option.map NameArg.toList (some (NameArg.many [n])) = some [n]
      from rfl, hq, hk, List.lookup]

/-- Listing `tool_list` for a single name returns either the empty mapping or a
single unwrapped record. -/
theorem tool_list_single_cases (menv : ModEnv) (n : String) :
    tool_list menv (some (.many [n])) = .toolsMap [] ∨
    ∃ obs, tool_list menv (some (.many [n])) = .single obs := by
  cases hnt : menv.noToolsInstalled with
  | true =>
    left
    unfold tool_list
    rw [hnt]
    rfl
  | false =>
    rcases hq : toolListLoop menv (some [n]) menv.lines [] with _ | ⟨q, rest⟩
    · exact Or.inl (tool_list_empty_of_loop_nil menv n hq)
    · exact Or.inr (tool_list_single_of_loop_ne_nil menv n hnt
        (by rw [hq]; simp))

/-- Claim C9 counterexample: querying a single installed name does not return
a mapping containing that name's record — `tool_list` unwraps it and
returns the record itself. -/
theorem claim_C9_counterexample :
    tool_list menvSingle (some (.many ["copier"])) = .single obsSingle ∧
    tool_list menvSingle (some (.many ["copier"])) ≠
      .toolsMap [("copier", obsSingle)] := by
  with_unfolding_all decide

/-- Claim C9 amended: querying a single not-installed name yields the empty
mapping and `tool_is_installed` is `false`; querying a single installed name
yields that name's record *itself* (unwrapped, not a mapping); and
`tool_is_installed name` is `true` exactly when `tool_list([name])` is
non-empty. -/
theorem claim_C9_observer (menv : ModEnv) (n : String) :
    ((∀ t v r ve, ListLine.entry t v r ve ∈ menv.lines → t ≠ n) →
      tool_list menv (some (.many [n])) = .toolsMap [] ∧
      tool_is_installed menv n = false) ∧
    (menv.noToolsInstalled = false →
      (∃ v r ve, ListLine.entry n v r ve ∈ menv.lines) →
      ∃ obs, tool_list menv (some (.many [n])) = .single obs) ∧
    (tool_is_installed menv n = true ↔
      tool_list menv (some (.many [n])) ≠ .toolsMap []) := by
  refine ⟨?_, ?_, ?_⟩
  · intro hno
    have hemp : toolListLoop menv (some [n]) menv.lines [] = [] := by
      cases hnt : menv.noToolsInstalled with
      | true =>
        exact toolListLoop_no_match menv [n] menv.lines
          (fun t v r ve h => by simpa using hno t v r ve h) []
      | false =>
        exact toolListLoop_no_match menv [n] menv.lines
          (fun t v r ve h => by simpa using hno t v r ve h) []
    cases hnt : menv.noToolsInstalled with
    | true =>
      constructor
      · unfold tool_list; rw [hnt]; rfl
      · unfold tool_is_installed tool_list; rw [hnt]; rfl
    | false =>
      have h1 := tool_list_empty_of_loop_nil menv n hemp
      refine ⟨h1, ?_⟩
      unfold tool_is_installed
      rw [h1]
      rfl
  · intro hnt ⟨v, r, ve, hmem⟩
    exact tool_list_single_of_loop_ne_nil menv n hnt
      (toolListLoop_entry_ne_nil menv [n] menv.lines [] n v r ve hmem
        (List.mem_singleton.mpr rfl))
  · unfold tool_is_installed
    rcases tool_list_single_cases menv n with h | ⟨obs, h⟩ <;> rw [h]
    · simp [ToolListResult.toBool]
    · simp [ToolListResult.toBool]

/-- Witness for the amended C9 at concrete single-tool output. -/
theorem claim_C9_observer_witness :
    (tool_list menvSingle (some (.many ["black"])) = .toolsMap [] ∧
      tool_is_installed menvSingle "black" = false) ∧
    (∃ obs, tool_list menvSingle (some (.many ["copier"])) = .single obs) ∧
    (tool_is_installed menvSingle "copier" = true ↔
      tool_list menvSingle (some (.many ["copier"])) ≠ .toolsMap []) := by
  refine ⟨?_, ?_, ?_⟩
  · refine (claim_C9_observer menvSingle "black").1 ?_
    intro t v r ve h
    simp [menvSingle] at h
    rw [h.1]
    decide
  · exact (claim_C9_observer menvSingle "copier").2.1 rfl
      ⟨"1.0.0", none, "/venv", by simp [menvSingle]⟩
  · exact (claim_C9_observer menvSingle "copier").2.2

end UvFormula
